import Mathlib

/-!
Verification development for the OData-to-Mermaid converter
(`odata_to_mermaid.py`): a shallow embedding of `parse_odata_file` and
`generate_mermaid_diagram` over an XML element-tree model, together with
theorems settling the specification claims.

The XML document is modelled after `xml.etree.ElementTree`: an element has
a tag (namespace-qualified tags are spelled with literal braces, as
ElementTree does), an attribute dictionary, and a list of child elements.
`findall` path queries used by the source are `./Tag` (direct children) and
`.//Tag` (all proper descendants, in document order).
-/

mutual
inductive Elem where
  | mk : String → List (String × String) → ElemList → Elem
inductive ElemList where
  | nil : ElemList
  | cons : Elem → ElemList → ElemList
end

def ElemList.ofList : List Elem → ElemList
  | [] => ElemList.nil
  | e :: es => ElemList.cons e (ElemList.ofList es)

/-- Build an element from a plain list of children. -/
def el (t : String) (a : List (String × String)) (kids : List Elem) : Elem :=
  Elem.mk t a (ElemList.ofList kids)

def Elem.tag : Elem → String
  | Elem.mk t _ _ => t

def Elem.attrs : Elem → List (String × String)
  | Elem.mk _ a _ => a

def Elem.kids : Elem → ElemList
  | Elem.mk _ _ k => k

mutual
/-- The element itself followed by all its proper descendants, preorder. -/
def subtreeElems : Elem → List Elem
  | Elem.mk t a kids => Elem.mk t a kids :: forestElems kids
/-- All elements of a forest, preorder (document order). -/
def forestElems : ElemList → List Elem
  | ElemList.nil => []
  | ElemList.cons e rest => subtreeElems e ++ forestElems rest
end

def ElemList.toList : ElemList → List Elem
  | ElemList.nil => []
  | ElemList.cons e rest => e :: ElemList.toList rest

/-- Direct children as a plain list. -/
def childrenOf (e : Elem) : List Elem := (e.kids).toList

/-- `elem.get(name)`: attribute lookup (first binding; documents have
unique attribute names, like ElementTree's dict). -/
def attrGet (e : Elem) (a : String) : Option String :=
  ((e.attrs).find? (fun kv => kv.1 == a)).map (fun kv => kv.2)

/-- `elem.get(name, default)`. -/
def attrGetD (e : Elem) (a d : String) : String := (attrGet e a).getD d

/-- Python truthiness applied to `elem.get(name)`: `None` and the empty
string are both falsy (the source tests `if not name: continue`). -/
def truthyAttr (e : Elem) (a : String) : Option String :=
  match attrGet e a with
  | none => none
  | some s => if s = "" then none else some s

/-- `scope.findall('./Tag')`: direct children with the given tag. -/
def childAll (t : String) (e : Elem) : List Elem :=
  (childrenOf e).filter (fun c => c.tag == t)

/-- `scope.findall('.//Tag')`: all proper descendants with the given tag,
in document order. -/
def descAll (t : String) (e : Elem) : List Elem :=
  (forestElems e.kids).filter (fun c => c.tag == t)

/-- `scope.findall('.//*')`: all proper descendants. -/
def descWild (e : Elem) : List Elem := forestElems e.kids

/-- ElementTree spelling of a namespace-qualified tag. -/
def qtag (ns local_ : String) : String := "\x7b" ++ ns ++ "\x7d" ++ local_

def nsEdm : String := "http://schemas.microsoft.com/ado/2009/11/edm"

def nsEdm2008 : String := "http://schemas.microsoft.com/ado/2008/09/edm"

/-! String helpers mirroring the Python operations used by the source. -/

/-- `s.split(sep)` for a one-character separator, Python semantics. -/
def pySplitAux (sep : Char) : List Char → List Char → List String
  | [], cur => [String.mk cur.reverse]
  | c :: cs, cur =>
    if c = sep then String.mk cur.reverse :: pySplitAux sep cs []
    else pySplitAux sep cs (c :: cur)

def pySplit (s : String) (sep : Char) : List String := pySplitAux sep s.data []

/-- `s.split('.')[-1]`: the last namespace segment (whole string when there
is no dot). -/
def lastSeg (s : String) : String := (pySplit s '.').getLastD s

/-- `s.endswith(t)`. -/
def pyEndsWith (s t : String) : Bool := t.data.isSuffixOf s.data

/-- `s.replace(a, b)` for a one-character pattern and replacement: every
occurrence of the character is replaced, i.e. a character map. -/
def replaceChar (a b : Char) (s : String) : String :=
  String.mk (s.data.map (fun c => if c = a then b else c))

/-- `s.replace("_PK_", "")`: remove every (non-overlapping, left-to-right)
occurrence of the four-character marker, as Python `str.replace` does. -/
def removePKAux : List Char → List Char
  | '_' :: 'P' :: 'K' :: '_' :: rest => removePKAux rest
  | c :: rest => c :: removePKAux rest
  | [] => []

def removePKMarker (s : String) : String := String.mk (removePKAux s.data)

/-- `"(PK)" in s`: substring test for the literal key marker. -/
def hasPKTagAux : List Char → Bool
  | '(' :: 'P' :: 'K' :: ')' :: _ => true
  | _ :: rest => hasPKTagAux rest
  | [] => false

def hasPKTag (s : String) : Bool := hasPKTagAux s.data

/-! Insertion-ordered dictionaries (Python `dict`): assignment to an
existing key replaces the value in place, keeping the original position. -/

def dictInsert {α : Type} (k : String) (v : α) : List (String × α) → List (String × α)
  | [] => [(k, v)]
  | kv :: rest => if kv.1 = k then (k, v) :: rest else kv :: dictInsert k v rest

/-- `k in d` for a dict. -/
def dictHas {α : Type} (d : List (String × α)) (k : String) : Bool :=
  d.any (fun kv => kv.1 == k)

/-- `d[k]` / `d.get(k)` (first binding). -/
def dictGet {α : Type} (d : List (String × α)) (k : String) : Option α :=
  (d.find? (fun kv => kv.1 == k)).map (fun kv => kv.2)

/-! The canonical model produced by `parse_odata_file`: an entity is a name
together with its `(prop_name, prop_type, nullable)` triples, and a
relationship is the bare `(from_entity, to_entity, from_mult, to_mult)`
4-tuple of strings. -/

abbrev PropT := String × String × String

abbrev Entities := List (String × List PropT)

abbrev RelT := String × String × String × String

/-! Schema location (source lines 21-44). Approaches 1-4 are always run and
concatenated; the `tag.endswith('Schema')` scan (approach 5) runs only when
approaches 1-4 found nothing. -/

def schemaBase (root : Elem) : List Elem :=
  descAll (qtag nsEdm "Schema") root
    ++ descAll (qtag nsEdm2008 "Schema") root
    ++ descAll (qtag nsEdm2008 "Schema") root
    ++ descAll "Schema" root

def schemaScan (root : Elem) : List Elem :=
  (descWild root).filter (fun e => pyEndsWith e.tag "Schema")

def findSchemas (root : Elem) : List Elem :=
  schemaBase root ++ (if (schemaBase root).isEmpty then schemaScan root else [])

/-- The five-strategy lookup used (relative to a scope element) for
EntityType, Association, Key, PropertyRef, Property, End and
NavigationProperty nodes: `./T`, `.//T`, `.//{2008}T`, `.//edm:T` (2009),
`.//edm2008:T` — concatenated, never deduplicated. -/
def findNodes (t : String) (scope : Elem) : List Elem :=
  childAll t scope ++ descAll t scope
    ++ descAll (qtag nsEdm2008 t) scope
    ++ descAll (qtag nsEdm t) scope
    ++ descAll (qtag nsEdm2008 t) scope

/-- EntitySet lookup over the whole document (source lines 80-84): four
strategies, no `./` form. -/
def findEntitySets (root : Elem) : List Elem :=
  descAll "EntitySet" root
    ++ descAll (qtag nsEdm2008 "EntitySet") root
    ++ descAll (qtag nsEdm "EntitySet") root
    ++ descAll (qtag nsEdm2008 "EntitySet") root

def allEntityTypes (root : Elem) : List Elem :=
  (findSchemas root).foldl (fun acc s => acc ++ findNodes "EntityType" s) []

def allAssociations (root : Elem) : List Elem :=
  (findSchemas root).foldl (fun acc s => acc ++ findNodes "Association" s) []

/-- The entity-set map (source lines 87-100). It records the vendor label
per leaf entity-type name; the parse only ever reads the label into the
unused local `entity_label`, so this map has no effect on the returned
model. -/
def entitySetMap (root : Elem) : List (String × Option String) :=
  (findEntitySets root).foldl
    (fun m es =>
      let ta := attrGetD es "EntityType" ""
      if ta = "" then m
      else
        let name := lastSeg ta
        let lbl := match attrGet es (qtag "http://www.successfactors.com/edm/sap" "label") with
          | some v => some v
          | none => attrGet es "sap:label"
        dictInsert name lbl m)
    []

/-- Key property names of an entity type (source lines 116-137): the first
`Key` node found, then the `Name` of each of its `PropertyRef` children
(falsy names skipped). -/
def keyProps (et : Elem) : List String :=
  match (findNodes "Key" et).head? with
  | none => []
  | some ke => (findNodes "PropertyRef" ke).filterMap (fun pr => truthyAttr pr "Name")

/-- One `Property` node (source lines 147-169): skip when `Name` is falsy;
type is the last segment of `Type` (default `Edm.String`); `Nullable`
defaults to `"true"`; a key property's name gets the `" (PK)"` suffix
before being stored. The vendor-label local `display_name` (lines 157-160)
is unused by the source and omitted. -/
def propStep (kps : List String) (ps : List PropT) (p : Elem) : List PropT :=
  match truthyAttr p "Name" with
  | none => ps
  | some pname =>
    let ptype := lastSeg (attrGetD p "Type" "Edm.String")
    let nullable := attrGetD p "Nullable" "true"
    let pname' := if kps.contains pname then pname ++ " (PK)" else pname
    ps ++ [(pname', ptype, nullable)]

def entProps (et : Elem) : List PropT :=
  (findNodes "Property" et).foldl (propStep (keyProps et)) []

/-- One entity type (source lines 103-173): skip when `Name` is falsy, drop
the entity when it has no properties, otherwise insert (overwriting any
earlier entity of the same name). -/
def entStep (es : Entities) (et : Elem) : Entities :=
  match truthyAttr et "Name" with
  | none => es
  | some name =>
    let ps := entProps et
    if ps.isEmpty then es else dictInsert name ps es

def entitiesOf (root : Elem) : Entities := (allEntityTypes root).foldl entStep []

/-- The association-name map (source lines 176-193). ElementTree elements
have no `getparent`, so the namespace-qualified branch (lines 184-193)
never runs and only leaf names are stored. -/
def assocMapStep (m : List (String × Elem)) (a : Elem) : List (String × Elem) :=
  match truthyAttr a "Name" with
  | none => m
  | some n => dictInsert n a m

def buildAssocMap (assocs : List Elem) : List (String × Elem) :=
  assocs.foldl assocMapStep []

/-- The leaf entity name of an `End` node:
`t.split('.')[-1] if t else ''` with `t = end.get('Type', '')`
(source lines 213-216 and 286-287). -/
def endLeafType (e : Elem) : String :=
  if attrGetD e "Type" "" = "" then "" else lastSeg (attrGetD e "Type" "")

/-- Pass 1, association-based (source lines 199-222): an association with a
truthy `Name` and exactly two `End` results contributes its 4-tuple,
appended unconditionally, provided both leaf type names are truthy and
present in the entity dict. -/
def pass1Step (entities : Entities) (rs : List RelT) (a : Elem) : List RelT :=
  match truthyAttr a "Name" with
  | none => rs
  | some _ =>
    match findNodes "End" a with
    | [e1, e2] =>
      if endLeafType e1 ≠ "" ∧ endLeafType e2 ≠ ""
          ∧ dictHas entities (endLeafType e1) = true
          ∧ dictHas entities (endLeafType e2) = true then
        rs ++ [(endLeafType e1, endLeafType e2,
                attrGetD e1 "Multiplicity" "1", attrGetD e2 "Multiplicity" "1")]
      else rs
    | _ => rs

def pass1Rels (root : Elem) (entities : Entities) : List RelT :=
  (allAssociations root).foldl (pass1Step entities) []

/-- `if rel_tuple not in relationships: relationships.append(rel_tuple)`. -/
def addRel (r : RelT) (rs : List RelT) : List RelT :=
  if r ∈ rs then rs else rs ++ [r]

/-- The fallback target guess (source lines 314-319): the second name part
itself, else its `Per`-prefixed variant, whichever is an existing entity. -/
def heurTarget (entities : Entities) (second : String) : Option String :=
  if dictHas entities second then some second
  else if dictHas entities ("Per" ++ second) then some ("Per" ++ second)
  else none

/-- The role scan (source lines 274-282): over the two ends, last match
wins, and `elif` keeps an end that matches both roles as source only. -/
def roleScan (fromRole toRole : String) (ends : List Elem) : Option Elem × Option Elem :=
  ends.foldl
    (fun st e =>
      let role := attrGetD e "Role" ""
      if role = fromRole then (some e, st.2)
      else if role = toRole then (st.1, some e)
      else st)
    (none, none)

/-- Roled resolution of one navigation reference (source lines 252-297):
look the relationship token up in the association map (full token first,
then its leaf), require exactly two `End` results, match roles, and build
`(owning_entity, target, source_mult, target_mult)` when the target leaf
name is truthy and an existing entity. -/
def lookupAssoc (assocMap : List (String × Elem)) (rel : String) : Option Elem :=
  match dictGet assocMap rel with
  | some a => some a
  | none => dictGet assocMap (lastSeg rel)

def roledRel (entities : Entities) (assocMap : List (String × Elem))
    (entityName rel fromRole toRole : String) : Option RelT :=
  match lookupAssoc assocMap rel with
  | none => none
  | some a =>
    match findNodes "End" a with
    | [e1, e2] =>
      match roleScan fromRole toRole [e1, e2] with
      | (some se, some te) =>
        if endLeafType te ≠ "" ∧ dictHas entities (endLeafType te) = true then
          some (entityName, endLeafType te,
                attrGetD se "Multiplicity" "1", attrGetD te "Multiplicity" "1")
        else none
      | _ => none
    | _ => none

/-- The roled block of one navigation property (source lines 252-297): it
runs only when both roles are truthy, and adds the roled tuple through the
duplicate-tuple membership check. -/
def navRoledStep (entities : Entities) (assocMap : List (String × Elem))
    (entityName rel fromRole toRole : String) (rs : List RelT) : List RelT :=
  if fromRole ≠ "" ∧ toRole ≠ "" then
    match roledRel entities assocMap entityName rel fromRole toRole with
    | some r => addRel r rs
    | none => rs
  else rs

/-- The SAP name-splitting fallback block (source lines 303-325): split the
relationship token's leaf on `'_'`; when that gives exactly two parts and
the second resolves to an entity, add `(owner, target, "1", "*")` through
the duplicate-tuple membership check. -/
def navHeurStep (entities : Entities) (entityName rel : String) (rs : List RelT) : List RelT :=
  match pySplit (lastSeg rel) '_' with
  | [_, second] =>
    match heurTarget entities second with
    | some t => addRel (entityName, t, "1", "*") rs
    | none => rs
  | _ => rs

/-- One navigation property (source lines 238-325): skip when the
`Relationship` token is falsy; otherwise run the roled block and then —
unconditionally, not only on roled failure — the fallback block. -/
def navStep (entities : Entities) (assocMap : List (String × Elem)) (entityName : String)
    (rs : List RelT) (nav : Elem) : List RelT :=
  if attrGetD nav "Relationship" "" = "" then rs
  else
    navHeurStep entities entityName (attrGetD nav "Relationship" "")
      (navRoledStep entities assocMap entityName (attrGetD nav "Relationship" "")
        (attrGetD nav "FromRole" "") (attrGetD nav "ToRole" "") rs)

/-- Pass 2 over one entity type (source lines 225-236): skip when the
entity name is falsy or not an extracted entity, otherwise fold `navStep`
over its navigation properties. -/
def entNavStep (entities : Entities) (assocMap : List (String × Elem))
    (rs : List RelT) (et : Elem) : List RelT :=
  match truthyAttr et "Name" with
  | none => rs
  | some n =>
    if dictHas entities n then
      (findNodes "NavigationProperty" et).foldl (navStep entities assocMap n) rs
    else rs

/-- `parse_odata_file` (source lines 6-327), taking the already-parsed
document root. The only failure is the schema-not-found `ValueError`. -/
def parse_odata_file (root : Elem) : Except String (Entities × List RelT) :=
  if (findSchemas root).isEmpty then
    Except.error "No Schema element found in the OData file"
  else
    Except.ok (entitiesOf root,
      (allEntityTypes root).foldl
        (entNavStep (entitiesOf root) (buildAssocMap (allAssociations root)))
        (pass1Rels root (entitiesOf root)))

/-! `generate_mermaid_diagram` (source lines 329-414). -/

/-- The OData-type-to-Mermaid-type table (source lines 334-347), in
insertion order. -/
def type_map : List (String × String) :=
  [("Edm.String", "String"), ("Edm.Int32", "Int"), ("Edm.Int64", "Int64"),
   ("Edm.Boolean", "Boolean"), ("Edm.DateTime", "DateTime"),
   ("Edm.DateTimeOffset", "DateTime"), ("Edm.Time", "Time"),
   ("Edm.Decimal", "Decimal"), ("Edm.Double", "Float"),
   ("Edm.Single", "Float"), ("Edm.Guid", "String"), ("Edm.Binary", "Binary")]

/-- Type mapping (source lines 370-380): exact key lookup first, then the
first table entry whose key's leaf segment is a suffix of the stored type,
else the `"String"` default. -/
def mapType (t : String) : String :=
  match dictGet type_map t with
  | some v => v
  | none =>
    match type_map.find? (fun kv => pyEndsWith t (lastSeg kv.1)) with
    | some kv => kv.2
    | none => "String"

/-- `prop_name.split(' ')[0] if ' ' in prop_name else prop_name`
(source line 361). -/
def baseName (s : String) : String :=
  if s.data.contains ' ' then (pySplit s ' ').headD s else s

/-- Entity-name sanitization (source lines 352, 397-398): only `'-'` and
`' '` are replaced. -/
def sanitizeEnt (s : String) : String := replaceChar ' ' '_' (replaceChar '-' '_' s)

/-- Property-name sanitization (source line 383): `'-'`, `' '`, `'('`,
`')'` are replaced. -/
def sanitizeProp (s : String) : String :=
  replaceChar ')' '_' (replaceChar '(' '_' (replaceChar ' ' '_' (replaceChar '-' '_' s)))

/-- The per-entity dedup key (source line 364): raw base name and raw
stored type, joined by `'_'`. -/
def propKey (p : PropT) : String := baseName p.1 ++ "_" ++ p.2.1

/-- One emitted property line (source lines 370-390), including the PK
marker rewrite. -/
def propLine (p : PropT) : String :=
  let safeType := mapType p.2.1
  let sp := sanitizeProp p.1
  let sp2 := if hasPKTag p.1 then removePKMarker sp ++ " PK" else sp
  "        " ++ safeType ++ " " ++ sp2

/-- The property loop state step (source lines 359-390): skip a property
whose key was already added, else record the key and emit its line. -/
def propsFoldStep (st : List String × List String) (p : PropT) : List String × List String :=
  if st.1.contains (propKey p) then st
  else (st.1 ++ [propKey p], st.2 ++ [propLine p])

/-- One entity block (source lines 350-392): header, deduplicated property
lines, closing brace. -/
def entityBlock (e : String × List PropT) : List String :=
  ("    " ++ sanitizeEnt e.1 ++ " \x7b")
    :: (e.2.foldl propsFoldStep ([], [])).2
    ++ ["    \x7d"]

/-- Multiplicity-pair-to-symbol table (source lines 400-409). -/
def relSymbol (fm tm : String) : String :=
  if fm = "1" ∧ tm = "1" then "||--||"
  else if fm = "1" ∧ tm ∈ ["*", "0..*"] then "||--|\x7b"
  else if fm ∈ ["*", "0..*"] ∧ tm = "1" then "\x7d|--||"
  else "\x7d|--|\x7b"

/-- One relationship line (source lines 395-412). -/
def relLine (r : RelT) : String :=
  "    " ++ sanitizeEnt r.1 ++ " " ++ relSymbol r.2.2.1 r.2.2.2
    ++ " " ++ sanitizeEnt r.2.1 ++ " : relates"

/-- `generate_mermaid_diagram` (source lines 329-414): header line, entity
blocks in dict order, relationship lines in list order, joined by newlines. -/
def generate_mermaid_diagram (entities : Entities) (relationships : List RelT) : String :=
  String.intercalate "\n"
    (("erDiagram" :: entities.foldl (fun acc e => acc ++ entityBlock e) [])
      ++ relationships.map relLine)

/-! Concrete documents used by the claim theorems. All elements carry the
2009 EDM namespace, under which each of the source's lookup strategies
matches a node exactly once, except where a claim needs a different
namespace shape. -/

def etC1Employee : Elem :=
  el (qtag nsEdm "EntityType") [("Name", "Employee")]
    [el (qtag nsEdm "Key") [] [el (qtag nsEdm "PropertyRef") [("Name", "id")] []],
     el (qtag nsEdm "Property") [("Name", "id"), ("Type", "Edm.String"), ("Nullable", "false")] [],
     el (qtag nsEdm "Property") [("Name", "name"), ("Type", "Edm.String")] []]

def etC1Department : Elem :=
  el (qtag nsEdm "EntityType") [("Name", "Department")]
    [el (qtag nsEdm "Key") [] [el (qtag nsEdm "PropertyRef") [("Name", "id")] []],
     el (qtag nsEdm "Property") [("Name", "id"), ("Type", "Edm.String"), ("Nullable", "false")] []]

def assocC1 : Elem :=
  el (qtag nsEdm "Association") [("Name", "EmpDept")]
    [el (qtag nsEdm "End") [("Type", "NS.Employee"), ("Multiplicity", "1"), ("Role", "E")] [],
     el (qtag nsEdm "End") [("Type", "NS.Department"), ("Multiplicity", "1"), ("Role", "D")] []]

/-- The document of the specification's worked example: `Employee` with key
`id` and nullable `name`, `Department` with key `id`, one one-to-one
association between them. -/
def docC1 : Elem :=
  el "Root" []
    [el (qtag nsEdm "Schema") [("Namespace", "NS")] [etC1Employee, etC1Department, assocC1]]

/-- The model the parser extracts from `docC1` (key names carry the
embedded `" (PK)"` marker the parser adds). -/
def entsC1 : Entities :=
  [("Employee", [("id (PK)", "String", "false"), ("name", "String", "true")]),
   ("Department", [("id (PK)", "String", "false")])]

def relsC1 : List RelT := [("Employee", "Department", "1", "1")]

/-- The diagram text the code actually produces for `docC1`. -/
def mermaidC1Actual : String :=
  "erDiagram\n    Employee \x7b\n        String id_ PK\n        String name\n    \x7d\n    Department \x7b\n        String id_ PK\n    \x7d\n    Employee ||--|| Department : relates"

/-- The diagram text the claim (and the specification's example) expects. -/
def mermaidC1Claimed : String :=
  "erDiagram\n    Employee \x7b\n        String id PK\n        String name\n    \x7d\n    Department \x7b\n        String id PK\n    \x7d\n    Employee ||--|| Department : relates"

/-- Entities `A` (property `x`) and `B` (property `y`) as extracted from
the two-entity documents below. -/
def entsAB : Entities := [("A", [("x", "String", "true")]), ("B", [("y", "String", "true")])]

def etA : Elem :=
  el (qtag nsEdm "EntityType") [("Name", "A")]
    [el (qtag nsEdm "Property") [("Name", "x"), ("Type", "Edm.String")] []]

def etB : Elem :=
  el (qtag nsEdm "EntityType") [("Name", "B")]
    [el (qtag nsEdm "Property") [("Name", "y"), ("Type", "Edm.String")] []]

/-- Two associations with identical ends `(NS.A, "1")`, `(NS.B, "1")`. -/
def docC2 : Elem :=
  el "Root" []
    [el (qtag nsEdm "Schema") [("Namespace", "NS")]
      [etA, etB,
       el (qtag nsEdm "Association") [("Name", "R1")]
        [el (qtag nsEdm "End") [("Type", "NS.A"), ("Multiplicity", "1")] [],
         el (qtag nsEdm "End") [("Type", "NS.B"), ("Multiplicity", "1")] []],
       el (qtag nsEdm "Association") [("Name", "R2")]
        [el (qtag nsEdm "End") [("Type", "NS.A"), ("Multiplicity", "1")] [],
         el (qtag nsEdm "End") [("Type", "NS.B"), ("Multiplicity", "1")] []]]]

def navC3 : Elem :=
  el (qtag nsEdm "NavigationProperty")
    [("Name", "toB"), ("Relationship", "NS.A_B"), ("FromRole", "RA"), ("ToRole", "RB")] []

def etAWithNav : Elem :=
  el (qtag nsEdm "EntityType") [("Name", "A")]
    [el (qtag nsEdm "Property") [("Name", "x"), ("Type", "Edm.String")] [], navC3]

def assocC3 : Elem :=
  el (qtag nsEdm "Association") [("Name", "A_B")]
    [el (qtag nsEdm "End") [("Type", "NS.B"), ("Multiplicity", "1"), ("Role", "RB")] [],
     el (qtag nsEdm "End") [("Type", "NS.A"), ("Multiplicity", "1"), ("Role", "RA")] []]

/-- A navigation reference whose roles both match the association `A_B`
(ends listed target-first, so the roled tuple differs from Pass 1's). -/
def docC3 : Elem :=
  el "Root" [] [el (qtag nsEdm "Schema") [("Namespace", "NS")] [etAWithNav, etB, assocC3]]

def s2008 : Elem := el (qtag nsEdm2008 "Schema") [] []

def sPlain : Elem := el "Schema" [] []

def sWeird : Elem := el (qtag "urn:x" "Schema") [] []

/-- A single 2008-namespace schema: strategies 2 and 3 both match it. -/
def docC6dup : Elem := el "Root" [] [s2008]

/-- A plain `Schema` next to a `Schema` in an unknown namespace: strategies
1-4 already match the plain one, so the `endswith` scan never runs. -/
def docC6sc : Elem := el "Root" [] [sPlain, sWeird]

/-- `A` carries only a role-less navigation reference named `NS.A_B`, so
its relationship to `B` can only come from the name-splitting fallback. -/
def docC7h : Elem :=
  el "Root" []
    [el (qtag nsEdm "Schema") [("Namespace", "NS")]
      [el (qtag nsEdm "EntityType") [("Name", "A")]
        [el (qtag nsEdm "Property") [("Name", "x"), ("Type", "Edm.String")] [],
         el (qtag nsEdm "NavigationProperty") [("Name", "n"), ("Relationship", "NS.A_B")] []],
       etB]]

/-- The same relationship tuple derived confidently from an association. -/
def docC7r : Elem :=
  el "Root" []
    [el (qtag nsEdm "Schema") [("Namespace", "NS")]
      [etA, etB,
       el (qtag nsEdm "Association") [("Name", "R")]
        [el (qtag nsEdm "End") [("Type", "NS.A"), ("Multiplicity", "1")] [],
         el (qtag nsEdm "End") [("Type", "NS.B"), ("Multiplicity", "*")] []]]]

/-- Witness document for the no-dangling-references claim. -/
def docC4w : Elem :=
  el "Root" []
    [el (qtag nsEdm "Schema") [("Namespace", "NS")]
      [etA, etB,
       el (qtag nsEdm "Association") [("Name", "RW")]
        [el (qtag nsEdm "End") [("Type", "NS.A"), ("Multiplicity", "1")] [],
         el (qtag nsEdm "End") [("Type", "NS.B"), ("Multiplicity", "*")] []]]]

def sC5 : Elem := el (qtag nsEdm "Schema") [] []

/-- A document with a schema node and nothing else. -/
def docC5w : Elem := el "Root" [] [sC5]

/-- An entity-type node lacking the required `Name` attribute. -/
def etNoName : Elem := el (qtag nsEdm "EntityType") [("BaseType", "NS.X")] []

/-- A property node lacking the required `Name` attribute. -/
def propNoName : Elem := el (qtag nsEdm "Property") [("Type", "Edm.String")] []

/-! Spec-side vocabulary used by the amended claims. -/

/-- `rs` extends `init` by a suffix of pairwise-distinct tuples none of
which already occurs in `init` — what the membership-guarded appends of the
navigation pass guarantee relative to the Pass 1 output. -/
def RelExtends (init rs : List RelT) : Prop :=
  ∃ extra, rs = init ++ extra ∧ extra.Nodup ∧ ∀ x ∈ extra, x ∉ init

/-- First-seen deduplication of properties by `propKey`, relative to a set
of already-seen keys: the characterization of the renderer's per-entity
property loop. -/
def dedupProps (seen : List String) : List PropT → List PropT
  | [] => []
  | p :: ps =>
    if seen.contains (propKey p) then dedupProps seen ps
    else p :: dedupProps (seen ++ [propKey p]) ps

/-- Both endpoint names of every relationship in the list are keys of the
entity dict — the no-dangling-references invariant. -/
def EndpointsOk (entities : Entities) (rs : List RelT) : Prop :=
  ∀ x ∈ rs, dictHas entities x.1 = true ∧ dictHas entities x.2.1 = true

/-! Helper lemmas. -/

theorem foldl_preserve {α β : Type} (P : β → Prop) (f : β → α → β)
    (hstep : ∀ b a, P b → P (f b a)) :
    ∀ (l : List α) (init : β), P init → P (l.foldl f init)
  | [], _, h0 => h0
  | a :: l, init, h0 => foldl_preserve P f hstep l (f init a) (hstep init a h0)

theorem mem_addRel (r : RelT) (rs : List RelT) : r ∈ addRel r rs := by
  unfold addRel
  split
  · assumption
  · simp

theorem relExtends_refl (init : List RelT) : RelExtends init init :=
  ⟨[], by simp, List.nodup_nil, by simp⟩

theorem relExtends_addRel (init rs : List RelT) (r : RelT) (h : RelExtends init rs) :
    RelExtends init (addRel r rs) := by
  obtain ⟨ex, hrs, hnd, hdis⟩ := h
  subst hrs
  unfold addRel
  split
  · exact ⟨ex, rfl, hnd, hdis⟩
  · next hnm =>
    refine ⟨ex ++ [r], List.append_assoc _ _ _, ?_, ?_⟩
    · rw [List.nodup_append]
      refine ⟨hnd, List.nodup_singleton r, ?_⟩
      intro a ha hb
      rw [List.mem_singleton] at hb
      subst hb
      exact hnm (List.mem_append.mpr (Or.inr ha))
    · intro x hx
      rcases List.mem_append.mp hx with hx | hx
      · exact hdis x hx
      · rw [List.mem_singleton] at hx
        subst hx
        intro hin
        exact hnm (List.mem_append.mpr (Or.inl hin))

theorem relExtends_navRoledStep (init rs : List RelT) (entities : Entities)
    (am : List (String × Elem)) (n rel fr tr : String) (h : RelExtends init rs) :
    RelExtends init (navRoledStep entities am n rel fr tr rs) := by
  unfold navRoledStep
  split
  · split
    · exact relExtends_addRel _ _ _ h
    · exact h
  · exact h

theorem relExtends_navHeurStep (init rs : List RelT) (entities : Entities)
    (n rel : String) (h : RelExtends init rs) :
    RelExtends init (navHeurStep entities n rel rs) := by
  unfold navHeurStep
  split
  · split
    · exact relExtends_addRel _ _ _ h
    · exact h
  · exact h

theorem relExtends_navStep (init rs : List RelT) (entities : Entities)
    (am : List (String × Elem)) (n : String) (nav : Elem) (h : RelExtends init rs) :
    RelExtends init (navStep entities am n rs nav) := by
  unfold navStep
  split
  · exact h
  · exact relExtends_navHeurStep _ _ _ _ _ (relExtends_navRoledStep _ _ _ _ _ _ _ _ h)

theorem relExtends_entNavStep (init rs : List RelT) (entities : Entities)
    (am : List (String × Elem)) (et : Elem) (h : RelExtends init rs) :
    RelExtends init (entNavStep entities am rs et) := by
  unfold entNavStep
  split
  · exact h
  · split
    · exact foldl_preserve (RelExtends init) _
        (fun b a hb => relExtends_navStep _ _ _ _ _ _ hb) _ _ h
    · exact h

theorem mem_replaceChar {a b c : Char} {s : String} (h : c ∈ (replaceChar a b s).data) :
    c = b ∨ (c ∈ s.data ∧ c ≠ a) := by
  unfold replaceChar at h
  rw [show (String.mk (s.data.map (fun c => if c = a then b else c))).data
        = s.data.map (fun c => if c = a then b else c) from rfl,
      List.mem_map] at h
  obtain ⟨x, hx, hfx⟩ := h
  by_cases hxa : x = a
  · subst hxa
    rw [if_pos rfl] at hfx
    exact Or.inl hfx.symm
  · rw [if_neg hxa] at hfx
    subst hfx
    exact Or.inr ⟨hx, hxa⟩

theorem dedupProps_nil (seen : List String) : dedupProps seen [] = [] := rfl

theorem dedupProps_cons_seen (seen : List String) (p : PropT) (ps : List PropT)
    (h : seen.contains (propKey p) = true) :
    dedupProps seen (p :: ps) = dedupProps seen ps := by
  rw [dedupProps, if_pos h]

theorem dedupProps_cons_new (seen : List String) (p : PropT) (ps : List PropT)
    (h : ¬ seen.contains (propKey p) = true) :
    dedupProps seen (p :: ps) = p :: dedupProps (seen ++ [propKey p]) ps := by
  rw [dedupProps, if_neg h]

theorem propsFold_char (props : List PropT) : ∀ seen lines : List String,
    props.foldl propsFoldStep (seen, lines) =
      (seen ++ (dedupProps seen props).map propKey,
       lines ++ (dedupProps seen props).map propLine) := by
  induction props with
  | nil => intro seen lines; simp [dedupProps_nil]
  | cons p ps ih =>
    intro seen lines
    by_cases h : seen.contains (propKey p)
    · rw [List.foldl_cons]
      rw [show propsFoldStep (seen, lines) p = (seen, lines) by
        unfold propsFoldStep; rw [if_pos h]]
      rw [ih seen lines, dedupProps_cons_seen seen p ps h]
    · rw [List.foldl_cons]
      rw [show propsFoldStep (seen, lines) p
            = (seen ++ [propKey p], lines ++ [propLine p]) by
        unfold propsFoldStep; rw [if_neg h]]
      rw [ih (seen ++ [propKey p]) (lines ++ [propLine p]),
          dedupProps_cons_new seen p ps h]
      simp only [List.map_cons, List.append_assoc, List.singleton_append]

theorem endpointsOk_nil (entities : Entities) : EndpointsOk entities [] := by
  intro x hx
  cases hx

theorem endpointsOk_append_one (entities : Entities) (rs : List RelT) (r : RelT)
    (hr : dictHas entities r.1 = true ∧ dictHas entities r.2.1 = true)
    (h : EndpointsOk entities rs) : EndpointsOk entities (rs ++ [r]) := by
  intro x hx
  rcases List.mem_append.mp hx with hx | hx
  · exact h x hx
  · rw [List.mem_singleton] at hx
    subst hx
    exact hr

theorem endpointsOk_addRel (entities : Entities) (rs : List RelT) (r : RelT)
    (hr : dictHas entities r.1 = true ∧ dictHas entities r.2.1 = true)
    (h : EndpointsOk entities rs) : EndpointsOk entities (addRel r rs) := by
  unfold addRel
  split
  · exact h
  · exact endpointsOk_append_one entities rs r hr h

theorem endpointsOk_pass1Step (entities : Entities) (rs : List RelT) (a : Elem)
    (h : EndpointsOk entities rs) : EndpointsOk entities (pass1Step entities rs a) := by
  unfold pass1Step
  split
  · exact h
  · split
    · split
      · next hc => exact endpointsOk_append_one entities rs _ ⟨hc.2.2.1, hc.2.2.2⟩ h
      · exact h
    · exact h

theorem roledRel_some (entities : Entities) (am : List (String × Elem))
    (n rel fr tr : String) (r : RelT)
    (h : roledRel entities am n rel fr tr = some r) :
    r.1 = n ∧ dictHas entities r.2.1 = true := by
  unfold roledRel at h
  split at h
  · exact absurd h (by simp)
  · split at h
    · split at h
      · split at h
        · next hc =>
          rw [Option.some.injEq] at h
          subst h
          exact ⟨rfl, hc.2⟩
        · exact absurd h (by simp)
      · exact absurd h (by simp)
    · exact absurd h (by simp)

theorem heurTarget_some (entities : Entities) (s t : String)
    (h : heurTarget entities s = some t) : dictHas entities t = true := by
  unfold heurTarget at h
  split at h
  · next hc =>
    rw [Option.some.injEq] at h
    subst h
    exact hc
  · split at h
    · next hc =>
      rw [Option.some.injEq] at h
      subst h
      exact hc
    · exact absurd h (by simp)

theorem endpointsOk_navRoledStep (entities : Entities) (am : List (String × Elem))
    (n rel fr tr : String) (rs : List RelT) (hn : dictHas entities n = true)
    (h : EndpointsOk entities rs) :
    EndpointsOk entities (navRoledStep entities am n rel fr tr rs) := by
  unfold navRoledStep
  split
  · split
    · rename_i r hr
      have hc := roledRel_some entities am n rel fr tr r hr
      exact endpointsOk_addRel entities rs r ⟨by rw [hc.1]; exact hn, hc.2⟩ h
    · exact h
  · exact h

theorem endpointsOk_navHeurStep (entities : Entities) (n rel : String) (rs : List RelT)
    (hn : dictHas entities n = true) (h : EndpointsOk entities rs) :
    EndpointsOk entities (navHeurStep entities n rel rs) := by
  unfold navHeurStep
  split
  · split
    · rename_i t ht
      exact endpointsOk_addRel entities rs _ ⟨hn, heurTarget_some entities _ t ht⟩ h
    · exact h
  · exact h

theorem endpointsOk_navStep (entities : Entities) (am : List (String × Elem))
    (n : String) (rs : List RelT) (nav : Elem) (hn : dictHas entities n = true)
    (h : EndpointsOk entities rs) :
    EndpointsOk entities (navStep entities am n rs nav) := by
  unfold navStep
  split
  · exact h
  · exact endpointsOk_navHeurStep entities n _ _ hn
      (endpointsOk_navRoledStep entities am n _ _ _ rs hn h)

theorem endpointsOk_entNavStep (entities : Entities) (am : List (String × Elem))
    (rs : List RelT) (et : Elem) (h : EndpointsOk entities rs) :
    EndpointsOk entities (entNavStep entities am rs et) := by
  unfold entNavStep
  split
  · exact h
  · split
    · next hn =>
      exact foldl_preserve (EndpointsOk entities) _
        (fun b a hb => endpointsOk_navStep entities am _ b a hn hb) _ _ h
    · exact h

theorem endpointsOk_pass1Rels (root : Elem) (entities : Entities) :
    EndpointsOk entities (pass1Rels root entities) :=
  foldl_preserve (EndpointsOk entities) _
    (fun b a hb => endpointsOk_pass1Step entities b a hb) _ _
    (endpointsOk_nil entities)

/-! Claim theorems. -/

/-- C4: for every document the parser accepts, every relationship in the
returned collection has both its from-entity and to-entity names present as
entity names in the returned entity collection; a candidate relationship
referencing an absent entity (including entities dropped for having zero
properties) is never emitted. -/
theorem C4_no_dangling (root : Elem) (e : Entities) (r : List RelT)
    (h : parse_odata_file root = Except.ok (e, r)) :
    ∀ x ∈ r, dictHas e x.1 = true ∧ dictHas e x.2.1 = true := by
  unfold parse_odata_file at h
  split at h
  · exact absurd h (by simp)
  · rw [Except.ok.injEq, Prod.mk.injEq] at h
    obtain ⟨he, hr⟩ := h
    subst he
    subst hr
    exact foldl_preserve (EndpointsOk (entitiesOf root)) _
      (fun b a hb => endpointsOk_entNavStep _ _ b a hb) _ _
      (endpointsOk_pass1Rels root (entitiesOf root))

/-- C4 witness: on the concrete document `docC4w` the parser returns the
relationship `("A","B","1","*")`, and both endpoints are in the entity
dict. -/
theorem C4_no_dangling_witness :
    dictHas entsAB "A" = true ∧ dictHas entsAB "B" = true :=
  C4_no_dangling docC4w entsAB [("A", "B", "1", "*")] rfl ("A", "B", "1", "*")
    (List.mem_singleton.mpr rfl)

/-- C2 counterexample: `docC2` holds two associations with identical ends,
and the parser returns the same 4-tuple twice — the returned relationship
sequence is not collapsed by the 4-tuple key. -/
theorem C2_cex :
    parse_odata_file docC2
      = Except.ok (entsAB, [("A", "B", "1", "1"), ("A", "B", "1", "1")])
    ∧ ¬ ([("A", "B", "1", "1"), ("A", "B", "1", "1")] : List RelT).Nodup :=
  ⟨rfl, by decide⟩

/-- C2 (amended): only the navigation pass (Pass 2) deduplicates — the
returned list is the Pass 1 output (which may contain duplicate 4-tuples)
followed by a duplicate-free suffix of tuples not already in the Pass 1
output. -/
theorem C2_nav_dedup_only (root : Elem) (e : Entities) (r : List RelT)
    (h : parse_odata_file root = Except.ok (e, r)) :
    ∃ extra, r = pass1Rels root e ++ extra ∧ extra.Nodup
      ∧ ∀ x ∈ extra, x ∉ pass1Rels root e := by
  unfold parse_odata_file at h
  split at h
  · exact absurd h (by simp)
  · rw [Except.ok.injEq, Prod.mk.injEq] at h
    obtain ⟨he, hr⟩ := h
    subst he
    subst hr
    exact foldl_preserve (RelExtends (pass1Rels root (entitiesOf root))) _
      (fun b a hb => relExtends_entNavStep _ b _ _ a hb) _ _
      (relExtends_refl _)

/-- C2 witness: the amended statement applied to `docC2`: the whole
duplicate-containing output is Pass 1's, with an empty navigation suffix. -/
theorem C2_nav_dedup_only_witness :
    ∃ extra, ([("A", "B", "1", "1"), ("A", "B", "1", "1")] : List RelT)
        = pass1Rels docC2 entsAB ++ extra
      ∧ extra.Nodup ∧ ∀ x ∈ extra, x ∉ pass1Rels docC2 entsAB :=
  C2_nav_dedup_only docC2 entsAB [("A", "B", "1", "1"), ("A", "B", "1", "1")] rfl

/-- C3 counterexample: in `docC3` the navigation reference's roles both
match the association's two ends and the roled tuple `("A","B","1","1")`
is emitted — yet the name-splitting fallback also runs and appends its own
`("A","B","1","*")` (no `"*"` multiplicity occurs anywhere in the
document, so that tuple can only come from the fallback). -/
theorem C3_cex :
    parse_odata_file docC3
      = Except.ok (entsAB,
          [("B", "A", "1", "1"), ("A", "B", "1", "1"), ("A", "B", "1", "*")])
    ∧ roledRel entsAB (buildAssocMap (allAssociations docC3)) "A" "NS.A_B" "RA" "RB"
        = some ("A", "B", "1", "1")
    ∧ ("A", "B", "1", "*") ∉ pass1Rels docC3 entsAB :=
  ⟨rfl, rfl, by decide⟩

/-- C3 (amended): the fallback heuristic runs for every navigation
reference with a truthy relationship token whose leaf splits on `'_'` into
exactly two parts and whose second part resolves to an entity — regardless
of whether roled resolution succeeded; the fallback tuple is in the result
of processing the reference. -/
theorem C3_fallback_always (entities : Entities) (am : List (String × Elem))
    (n : String) (rs : List RelT) (nav : Elem)
    (hrel : ¬ attrGetD nav "Relationship" "" = "")
    (p1 second t : String)
    (hsplit : pySplit (lastSeg (attrGetD nav "Relationship" "")) '_' = [p1, second])
    (ht : heurTarget entities second = some t) :
    (n, t, "1", "*") ∈ navStep entities am n rs nav := by
  unfold navStep
  rw [if_neg hrel]
  unfold navHeurStep
  rw [hsplit]
  dsimp only
  rw [ht]
  exact mem_addRel _ _

/-- C3 witness: the amended statement at `docC3`'s navigation reference
(whose roles do match the association). -/
theorem C3_fallback_always_witness :
    ("A", "B", "1", "*")
      ∈ navStep entsAB (buildAssocMap (allAssociations docC3)) "A" [] navC3 :=
  C3_fallback_always entsAB (buildAssocMap (allAssociations docC3)) "A" [] navC3
    (by decide) "A" "B" "B" rfl rfl

/-- C1 (code bug): on the specification's worked example the parser embeds
the key marker `" (PK)"` into the property name before sanitization; the
renderer sanitizes it to `"__PK_"`, strips only `"_PK_"`, and appends
`" PK"`, so key lines come out as `String id_ PK` — the sanitized name is
corrupted by a trailing underscore, and the output differs from the claimed
diagram text with `String id PK`. -/
theorem C1_key_marker_corrupts :
    parse_odata_file docC1 = Except.ok (entsC1, relsC1)
    ∧ generate_mermaid_diagram entsC1 relsC1 = mermaidC1Actual
    ∧ generate_mermaid_diagram entsC1 relsC1 ≠ mermaidC1Claimed :=
  ⟨rfl, rfl, by decide⟩

/-- C5: parsing returns the fatal schema-not-found error exactly when every
schema search strategy found nothing; a document with schema nodes but no
entity-type, association or entity-set nodes yields the empty model without
error; and an entity-type or property node with an absent (or empty) `Name`
is silently dropped by its processing step. -/
theorem C5_error_policy (root : Elem) :
    (parse_odata_file root = Except.error "No Schema element found in the OData file"
      ↔ findSchemas root = [])
    ∧ (findSchemas root ≠ [] → allEntityTypes root = [] → allAssociations root = [] →
        findEntitySets root = [] → parse_odata_file root = Except.ok ([], []))
    ∧ (∀ es et, truthyAttr et "Name" = none → entStep es et = es)
    ∧ (∀ kps ps p, truthyAttr p "Name" = none → propStep kps ps p = ps) := by
  refine ⟨⟨?_, ?_⟩, ?_, ?_, ?_⟩
  · intro h
    unfold parse_odata_file at h
    split at h
    · next hc => exact List.isEmpty_iff.mp hc
    · exact absurd h (by simp)
  · intro h
    unfold parse_odata_file
    rw [if_pos (List.isEmpty_iff.mpr h)]
  · intro h1 h2 h3 _h4
    unfold parse_odata_file
    rw [if_neg (fun hc => h1 (List.isEmpty_iff.mp hc))]
    unfold entitiesOf pass1Rels
    rw [h2, h3]
    rfl
  · intro es et h
    unfold entStep
    rw [h]
  · intro kps ps p h
    unfold propStep
    rw [h]

/-- C5 witness: the schema-only document parses to the empty model, and the
nameless entity-type and property nodes are skipped. -/
theorem C5_error_policy_witness :
    parse_odata_file docC5w = Except.ok ([], [])
    ∧ entStep entsAB etNoName = entsAB
    ∧ propStep ["id"] [] propNoName = [] :=
  ⟨(C5_error_policy docC5w).2.1
      (by rw [show findSchemas docC5w = [sC5] from rfl]; exact List.cons_ne_nil _ _)
      rfl rfl rfl,
   (C5_error_policy docC5w).2.2.1 entsAB etNoName rfl,
   (C5_error_policy docC5w).2.2.2 ["id"] [] propNoName rfl⟩

/-- C6 counterexample: the 2008-namespace schema of `docC6dup` is matched
by two strategies and returned twice (no deduplication by node identity);
and in `docC6sc` the plain `Schema` satisfies strategies 1-4, so the
exhaustive `endswith` scan is skipped and the unknown-namespace schema —
whose tag's local part is `Schema`, as the scan itself shows — is absent
from the returned sequence. -/
theorem C6_cex :
    findSchemas docC6dup = [s2008, s2008]
    ∧ ¬ (findSchemas docC6dup).Nodup
    ∧ findSchemas docC6sc = [sPlain]
    ∧ schemaScan docC6sc = [sPlain, sWeird]
    ∧ sWeird.tag ≠ sPlain.tag := by
  refine ⟨rfl, ?_, rfl, rfl, by decide⟩
  intro h
  rw [show findSchemas docC6dup = [s2008, s2008] from rfl, List.nodup_cons] at h
  exact h.1 (List.mem_singleton.mpr rfl)

/-- C6 (amended): membership in the per-kind lookup result is exactly
membership in one of the four always-run strategies (duplicates retained,
no exhaustive-scan strategy); for the schema lookup the exhaustive scan is
consulted only when strategies 1-4 returned nothing. -/
theorem C6_lookup_actual (root scope : Elem) (t : String) (e : Elem) :
    (e ∈ findNodes t scope ↔
      e ∈ childAll t scope ∨ e ∈ descAll t scope
        ∨ e ∈ descAll (qtag nsEdm2008 t) scope ∨ e ∈ descAll (qtag nsEdm t) scope)
    ∧ (schemaBase root = [] → findSchemas root = schemaScan root)
    ∧ (schemaBase root ≠ [] → findSchemas root = schemaBase root) := by
  refine ⟨?_, ?_, ?_⟩
  · unfold findNodes
    simp only [List.mem_append]
    tauto
  · intro h
    unfold findSchemas
    rw [h]
    rfl
  · intro h
    unfold findSchemas
    rw [if_neg (fun hc => h (List.isEmpty_iff.mp hc)), List.append_nil]

/-- C6 witness: on `docC6dup` the strategies 1-4 found nodes, so the result
is exactly their concatenation. -/
theorem C6_lookup_actual_witness :
    findSchemas docC6dup = schemaBase docC6dup :=
  (C6_lookup_actual docC6dup docC6dup "Schema" s2008).2.2
    (by rw [show schemaBase docC6dup = [s2008, s2008] from rfl]
        exact List.cons_ne_nil _ _)

/-- C7 counterexample: the fallback-derived relationship of `docC7h` and
the association-derived relationship of `docC7r` are the identical bare
4-tuple `("A","B","1","*")` — the returned relationship data carries no
confidence marker distinguishing the heuristic edge. -/
theorem C7_cex :
    parse_odata_file docC7h = Except.ok (entsAB, [("A", "B", "1", "*")])
    ∧ parse_odata_file docC7r = Except.ok (entsAB, [("A", "B", "1", "*")]) :=
  ⟨rfl, rfl⟩

/-- C7 (amended): relationships are returned as bare 4-tuples; a
heuristic-only document and a roled/association-only document produce equal
relationship collections, so downstream consumers cannot distinguish
confidence levels. -/
theorem C7_no_confidence_marker :
    Except.map Prod.snd (parse_odata_file docC7h)
      = Except.map Prod.snd (parse_odata_file docC7r) := rfl

theorem mem_sanitizeEnt {c : Char} {s : String} (h : c ∈ (sanitizeEnt s).data) :
    c ≠ '-' ∧ c ≠ ' ' := by
  unfold sanitizeEnt at h
  rcases mem_replaceChar h with h | ⟨h, h2⟩
  · subst h
    exact ⟨by decide, by decide⟩
  · rcases mem_replaceChar h with h | ⟨_, h1⟩
    · subst h
      exact ⟨by decide, by decide⟩
    · exact ⟨h1, h2⟩

theorem mem_sanitizeProp {c : Char} {s : String} (h : c ∈ (sanitizeProp s).data) :
    c ≠ '-' ∧ c ≠ ' ' ∧ c ≠ '(' ∧ c ≠ ')' := by
  unfold sanitizeProp at h
  rcases mem_replaceChar h with h | ⟨h, h4⟩
  · subst h
    exact ⟨by decide, by decide, by decide, by decide⟩
  · rcases mem_replaceChar h with h | ⟨h, h3⟩
    · subst h
      exact ⟨by decide, by decide, by decide, by decide⟩
    · rcases mem_replaceChar h with h | ⟨h, h2⟩
      · subst h
        exact ⟨by decide, by decide, by decide, by decide⟩
      · rcases mem_replaceChar h with h | ⟨_, h1⟩
        · subst h
          exact ⟨by decide, by decide, by decide, by decide⟩
        · exact ⟨h1, h2, h3, h4⟩

/-- C8 counterexample: entity names are sanitized only for `'-'` and
`' '` — a name containing parentheses keeps them, in the block header and
in the relationship line alike. -/
theorem C8_cex :
    sanitizeEnt "A(b)" = "A(b)"
    ∧ generate_mermaid_diagram [("A(b)", [("p", "String", "true")])]
        [("A(b)", "A(b)", "1", "1")]
      = "erDiagram\n    A(b) \x7b\n        String p\n    \x7d\n    A(b) ||--|| A(b) : relates" :=
  ⟨rfl, rfl⟩

/-- C8 (amended): property-name sanitization replaces all four characters
`'-'`, `' '`, `'('`, `')'`, but entity-name sanitization replaces only
`'-'` and `' '` (parentheses are kept); the same entity sanitization is
applied consistently to the entity block header and to both endpoints of
every relationship line. -/
theorem C8_sanitization (s : String) (name : String) (ps : List PropT) (r : RelT) :
    ('-' ∉ (sanitizeEnt s).data ∧ ' ' ∉ (sanitizeEnt s).data)
    ∧ ('-' ∉ (sanitizeProp s).data ∧ ' ' ∉ (sanitizeProp s).data
        ∧ '(' ∉ (sanitizeProp s).data ∧ ')' ∉ (sanitizeProp s).data)
    ∧ (entityBlock (name, ps)).head? = some ("    " ++ sanitizeEnt name ++ " \x7b")
    ∧ relLine r = "    " ++ sanitizeEnt r.1 ++ " " ++ relSymbol r.2.2.1 r.2.2.2
        ++ " " ++ sanitizeEnt r.2.1 ++ " : relates" := by
  refine ⟨⟨?_, ?_⟩, ⟨?_, ?_, ?_, ?_⟩, rfl, rfl⟩
  · intro h
    exact (mem_sanitizeEnt h).1 rfl
  · intro h
    exact (mem_sanitizeEnt h).2 rfl
  · intro h
    exact (mem_sanitizeProp h).1 rfl
  · intro h
    exact (mem_sanitizeProp h).2.1 rfl
  · intro h
    exact (mem_sanitizeProp h).2.2.1 rfl
  · intro h
    exact (mem_sanitizeProp h).2.2.2 rfl

/-- C9 counterexample: two properties of `E` named `a` with raw types
`Double` and `Single` have equal sanitized base names and equal mapped
diagram type (`Float`), yet both lines are emitted — the dedup key is the
raw pair, not the (sanitized name, mapped type) pair. -/
theorem C9_cex :
    generate_mermaid_diagram [("E", [("a", "Double", "true"), ("a", "Single", "true")])] []
      = "erDiagram\n    E \x7b\n        Float a\n        Float a\n    \x7d"
    ∧ mapType "Double" = mapType "Single" :=
  ⟨rfl, rfl⟩

/-- C9 (amended): the per-entity property lines are exactly the first-seen
deduplication by `propKey` — the pair (base name before sanitization, raw
stored type) — mapped through the line renderer; properties agreeing on
sanitized name and mapped type but differing in raw type (such as `Double`
versus `Single`, both mapped to `Float`) have different keys and each emit
their own line. -/
theorem C9_dedup_by_raw_key (props : List PropT) :
    (props.foldl propsFoldStep ([], [])).2 = (dedupProps [] props).map propLine
    ∧ propKey ("a", "Double", "true") ≠ propKey ("a", "Single", "true")
    ∧ mapType "Double" = mapType "Single" := by
  refine ⟨?_, by decide, rfl⟩
  rw [propsFold_char props [] []]
  dsimp only
  rw [List.nil_append]

/-- C10: the relationship-symbol choice is total over arbitrary
multiplicity strings — any pair matching none of the three specific
patterns, including non-normalized values such as `"0..1"`, falls through
to the many-to-many symbol. -/
theorem C10_default_many_many (fm tm : String)
    (h1 : ¬ (fm = "1" ∧ tm = "1"))
    (h2 : ¬ (fm = "1" ∧ tm ∈ (["*", "0..*"] : List String)))
    (h3 : ¬ (fm ∈ (["*", "0..*"] : List String) ∧ tm = "1")) :
    relSymbol fm tm = "\x7d|--|\x7b" := by
  unfold relSymbol
  rw [if_neg h1, if_neg h2, if_neg h3]

/-- C10 witness: the non-normalized pair `("0..1","1")` maps to the
many-to-many symbol. -/
theorem C10_default_many_many_witness :
    relSymbol "0..1" "1" = "\x7d|--|\x7b" :=
  C10_default_many_many "0..1" "1" (by decide) (by decide) (by decide)
